import Mathlib

/-!
Shallow embedding of the transaction-creation and authentication core of the
go-api-backend repository (Gin + GORM CRUD API).

Numeric fields declared `float64` in Go are modelled by `ℚ`: the core performs
only a single multiplication (`amount * price`) and order comparisons on these
fields, and every theorem below concerns which value is stored or compared,
not rounding behaviour.  Go `uint` identifiers are modelled by `ℕ`.
The persistence layer (GORM) is modelled by in-memory lists with a
find-by-primary-key / append / replace interface, matching the single-record
all-or-nothing `First` / `Create` / `Save` calls made by the handlers.
-/

namespace GoApi

/-- A Go dynamic value (`interface{}`), as stored in the Gin request context.
Only the shapes the code can actually put there are modelled: JSON numbers
decode to `float64` (`vFloat`), a Go `uint` stored directly is `vUint`, and
strings are `vString`. -/
inductive GoValue where
  | vFloat (q : ℚ)
  | vUint (n : ℕ)
  | vString (s : String)
deriving DecidableEq, Repr

/-- `models.User` (src/unnamed/part_001): persisted user record.  The
password field holds the bcrypt digest.  Timestamps and the soft-delete
marker play no role in the claims and are omitted. -/
structure User where
  id : ℕ
  email : String
  username : String
  password : String
  firstName : String
  lastName : String
  isActive : Bool
deriving DecidableEq, Repr

/-- `models.Asset` (src/unnamed/part_001). -/
structure Asset where
  id : ℕ
  name : String
  symbol : String
  type : String
  description : String
  price : ℚ
  isActive : Bool
deriving DecidableEq, Repr

/-- `models.Transaction` (src/unnamed/part_001). -/
structure Transaction where
  id : ℕ
  userID : ℕ
  assetID : ℕ
  type : String
  amount : ℚ
  price : ℚ
  totalValue : ℚ
  status : String
  description : String
deriving DecidableEq, Repr

/-- `models.CreateTransactionRequest` (src/unnamed/part_001 lines 95-101).
Note: the request carries no user field; the owning user can only come from
the request context. -/
structure CreateTransactionRequest where
  assetID : ℕ
  type : String
  amount : ℚ
  price : ℚ
  description : String
deriving DecidableEq, Repr

/-- `models.UpdateTransactionRequest` (src/unnamed/part_001 lines 104-110). -/
structure UpdateTransactionRequest where
  type : String
  amount : ℚ
  price : ℚ
  status : String
  description : String
deriving DecidableEq, Repr

/-- `models.LoginRequest` (src/unnamed/part_001). -/
structure LoginRequest where
  email : String
  password : String
deriving DecidableEq, Repr

/-- `models.RegisterRequest` (src/unnamed/part_001). -/
structure RegisterRequest where
  email : String
  username : String
  password : String
  firstName : String
  lastName : String
deriving DecidableEq, Repr

/-- `models.ErrorResponse`: the `{error, message}` JSON error body. -/
structure ErrorResponse where
  error : String
  message : String
deriving DecidableEq, Repr

/-- The persistence store: GORM tables for the three entities plus the next
auto-increment primary keys. -/
structure Store where
  users : List User
  assets : List Asset
  transactions : List Transaction
  nextUserID : ℕ
  nextTransactionID : ℕ
deriving DecidableEq, Repr

/-- `db.First(&asset, id)`: find an asset by primary key. -/
def lookupAsset (s : Store) (id : ℕ) : Option Asset :=
  s.assets.find? (fun a => a.id == id)

/-- `db.First(&transaction, id)`: find a transaction by primary key. -/
def lookupTransaction (s : Store) (id : ℕ) : Option Transaction :=
  s.transactions.find? (fun t => t.id == id)

/-- `db.Where("email = ?", email).First(&user)`. -/
def findUserByEmail (s : Store) (email : String) : Option User :=
  s.users.find? (fun u => u.email == email)

/-- `db.Where("email = ? OR username = ?", email, username).First(&user)`. -/
def findUserByEmailOrUsername (s : Store) (email username : String) : Option User :=
  s.users.find? (fun u => u.email == email || u.username == username)

/-- Gin `ShouldBindJSON` validation of `CreateTransactionRequest` per its
struct tags: `asset_id` is `required` (a numeric `required` fails on the
type's zero value), `type` is `required,oneof=buy sell transfer`,
`amount` and `price` are `required,min=0`. -/
def bindCreateTransactionRequest (r : CreateTransactionRequest) : Bool :=
  (r.assetID != 0) &&
  (r.type != "" && (r.type == "buy" || r.type == "sell" || r.type == "transfer")) &&
  (r.amount != 0 && decide (0 ≤ r.amount)) &&
  (r.price != 0 && decide (0 ≤ r.price))

/-- The unchecked Go type assertion `userID.(uint)` in `CreateTransaction`
(transaction_handler.go line 142): succeeds only when the dynamic type is
`uint`; any other dynamic type makes the assertion panic (`none`). -/
def typeAssertUint : GoValue → Option ℕ
  | .vUint n => some n
  | _ => none

/-- Outcome of the `CreateTransaction` handler, tagged with its HTTP status.
`panicked` is the run-time panic raised by a failed unchecked type
assertion: the handler terminates abnormally, writing no transaction. -/
inductive CreateResult where
  | badRequest (e : ErrorResponse)
  | unauthorized (e : ErrorResponse)
  | internalError (e : ErrorResponse)
  | panicked
  | created (t : Transaction)
deriving DecidableEq, Repr

/-- Error body for a dangling asset reference (transaction_handler.go
lines 125-128).  Returned with HTTP status 400 (`StatusBadRequest`). -/
def assetNotFoundResponse : ErrorResponse :=
  ⟨"Asset not found", "The specified asset does not exist"⟩

/-- `TransactionHandler.CreateTransaction` (transaction_handler.go
lines 101-164): bind and validate the JSON body, read `user_id` from the
request context, verify the referenced asset exists, compute
`totalValue = amount * price`, build the record with the unchecked
`userID.(uint)` assertion, `status = "pending"`, and append it to the store.
Returns the handler outcome together with the resulting store. -/
def createTransaction (s : Store) (ctxUserID : Option GoValue)
    (req : CreateTransactionRequest) : CreateResult × Store :=
  if !bindCreateTransactionRequest req then
    (.badRequest ⟨"Invalid request", "validation failed"⟩, s)
  else
    match ctxUserID with
    | none => (.unauthorized ⟨"Unauthorized", "User ID not found in token"⟩, s)
    | some v =>
      match lookupAsset s req.assetID with
      | none => (.badRequest assetNotFoundResponse, s)
      | some _ =>
        let totalValue := req.amount * req.price
        match typeAssertUint v with
        | none => (.panicked, s)
        | some uid =>
          let t : Transaction :=
            { id := s.nextTransactionID
              userID := uid
              assetID := req.assetID
              type := req.type
              amount := req.amount
              price := req.price
              totalValue := totalValue
              status := "pending"
              description := req.description }
          (.created t,
            { s with transactions := s.transactions ++ [t]
                     nextTransactionID := s.nextTransactionID + 1 })

/-- The field-merge step of `TransactionHandler.UpdateTransaction`
(transaction_handler.go lines 215-235): each request field is applied only
when non-zero (`!= ""` for strings, `> 0` for numbers), and when amount or
price was applied the total value is recomputed from the transaction's
resulting stored amount and price. -/
def applyUpdate (t : Transaction) (r : UpdateTransactionRequest) : Transaction :=
  let t1 := if r.type ≠ "" then { t with type := r.type } else t
  let t2 := if 0 < r.amount then { t1 with amount := r.amount } else t1
  let t3 := if 0 < r.price then { t2 with price := r.price } else t2
  let t4 := if r.status ≠ "" then { t3 with status := r.status } else t3
  let t5 := if r.description ≠ "" then { t4 with description := r.description } else t4
  if 0 < r.amount ∨ 0 < r.price then
    { t5 with totalValue := t5.amount * t5.price }
  else t5

/-- Outcome of the `UpdateTransaction` handler. -/
inductive UpdateResult where
  | notFound (e : ErrorResponse)
  | ok (t : Transaction)
deriving DecidableEq, Repr

/-- `TransactionHandler.UpdateTransaction` (transaction_handler.go
lines 180-249): load the transaction by id, merge the sparse request into
it, and save it back (GORM `Save` replaces the row with this primary key). -/
def updateTransaction (s : Store) (id : ℕ) (r : UpdateTransactionRequest) :
    UpdateResult × Store :=
  match lookupTransaction s id with
  | none => (.notFound ⟨"Transaction not found", "The requested transaction does not exist"⟩, s)
  | some t =>
    let t' := applyUpdate t r
    (.ok t',
      { s with transactions := s.transactions.map (fun x => if x.id == id then t' else x) })

/-! ### Token service and auth middleware -/

/-- JWT signing algorithm recorded in a token's header.  `HS256` is the
symmetric HMAC scheme the server uses; `RS256` and `algNone` stand for the
asymmetric and unsigned algorithms an attacker could put in a forged token. -/
inductive SigAlg where
  | HS256
  | RS256
  | algNone
deriving DecidableEq, Repr

/-- A decoded JWT as the `golang-jwt` library sees it: the header's
algorithm, the claim set `{user_id, iat, exp}`, and the signature.  The
signature of an honestly signed token is modelled as the HMAC key used to
produce it, so signature verification is comparison with the server secret. -/
structure Token where
  alg : SigAlg
  userID : ℕ
  iat : ℤ
  exp : ℤ
  sig : String
deriving DecidableEq, Repr

/-- `AuthHandler.generateToken` (transaction_handler.go lines 476-485):
claims `{user_id: userID, iat: now, exp: now + 24h}` (86400 seconds),
signed with `jwt.SigningMethodHS256` under the configured secret. -/
def generateToken (userID : ℕ) (now : ℤ) (secret : String) : Token :=
  { alg := .HS256
    userID := userID
    iat := now
    exp := now + 86400
    sig := secret }

/-- `jwt.Parse` validation as configured in `AuthMiddleware`
(middleware.go lines 75-89): the key function rejects any non-HMAC signing
method, the signature must verify under the server secret, and the
library's standard claim validation rejects a token whose `exp` is in the
past (`now` strictly after `exp`).  Returns the validated token. -/
def validateToken (tok : Token) (secret : String) (now : ℤ) : Option Token :=
  if tok.alg ≠ .HS256 then none
  else if tok.sig ≠ secret then none
  else if tok.exp < now then none
  else some tok

/-- Outcome of `AuthMiddleware` for one request. -/
inductive AuthOutcome where
  | reject401 (msg : String)
  | proceed (ctxUserID : GoValue)
deriving DecidableEq, Repr

/-- JSON decoding of the numeric `user_id` claim as performed by
`jwt.Parse` into `jwt.MapClaims` (`map[string]interface{}`):
`encoding/json` decodes every JSON number into a `float64`. -/
def decodedUserIDClaim (tok : Token) : GoValue :=
  .vFloat (tok.userID : ℚ)

/-- `AuthMiddleware` (middleware.go lines 51-111) after header extraction:
parse and validate the bearer token; on failure reject with 401; on success
store the decoded `user_id` claim in the request context under key
`"user_id"` and let the request proceed. -/
def authMiddleware (tok : Token) (secret : String) (now : ℤ) : AuthOutcome :=
  match validateToken tok secret now with
  | none => .reject401 "Invalid token"
  | some t => .proceed (decodedUserIDClaim t)

/-! ### Password hashing, registration and login -/

/-- `bcrypt.GenerateFromPassword` (external library, abstracted): a one-way
digest of the plaintext.  The model keeps the plaintext inside an opaque tag
so that verification is exact: `bcryptCompare d p` succeeds iff `d` was
generated from `p`, which is the behavioural contract the handlers rely on. -/
def bcryptGenerate (plaintext : String) : String :=
  "$2a$10$" ++ plaintext

/-- `bcrypt.CompareHashAndPassword` (external library, abstracted): true iff
the digest matches the plaintext. -/
def bcryptCompare (digest plaintext : String) : Bool :=
  digest == bcryptGenerate plaintext

/-- Gin email-format validation (`binding:"email"`, external validator
library, abstracted): the model only requires the string to contain `@`;
every theorem uses it uniformly for register and login. -/
def validEmail (s : String) : Bool :=
  s.toList.contains '@'

/-- Gin `ShouldBindJSON` validation of `RegisterRequest` per its struct
tags: `email` is `required,email`, `username` is `required,min=3,max=20`,
`password` is `required,min=6`. -/
def bindRegisterRequest (r : RegisterRequest) : Bool :=
  (r.email != "" && validEmail r.email) &&
  (r.username != "" && 3 ≤ r.username.length && r.username.length ≤ 20) &&
  (r.password != "" && 6 ≤ r.password.length)

/-- Gin `ShouldBindJSON` validation of `LoginRequest` per its struct tags:
`email` is `required,email`, `password` is `required`. -/
def bindLoginRequest (r : LoginRequest) : Bool :=
  (r.email != "" && validEmail r.email) && (r.password != "")

/-- Error body for bad credentials (transaction_handler.go lines 428-431
and 452-455): identical for an unknown email and a wrong password. -/
def invalidCredentialsResponse : ErrorResponse :=
  ⟨"Invalid credentials", "Email or password is incorrect"⟩

/-- Error body for a disabled account (transaction_handler.go
lines 443-446): distinct from `invalidCredentialsResponse`. -/
def accountDisabledResponse : ErrorResponse :=
  ⟨"Account disabled", "Your account has been disabled"⟩

/-- Outcome of the `Register` handler. -/
inductive RegisterResult where
  | badRequest (e : ErrorResponse)
  | conflict (e : ErrorResponse)
  | created (token : Token) (u : User)
deriving DecidableEq, Repr

/-- The user record `Register` builds and persists
(transaction_handler.go lines 369-376): hashed password, `IsActive = true`,
primary key assigned by the store. -/
def registeredUser (s : Store) (r : RegisterRequest) : User :=
  { id := s.nextUserID
    email := r.email
    username := r.username
    password := bcryptGenerate r.password
    firstName := r.firstName
    lastName := r.lastName
    isActive := true }

/-- `AuthHandler.Register` (transaction_handler.go lines 338-400): bind and
validate, reject with 409 if any user already has the email or the
username, otherwise hash the password, persist the new user and return a
fresh token for its id together with the user. -/
def register (s : Store) (r : RegisterRequest) (secret : String) (now : ℤ) :
    RegisterResult × Store :=
  if !bindRegisterRequest r then
    (.badRequest ⟨"Invalid request", "validation failed"⟩, s)
  else
    match findUserByEmailOrUsername s r.email r.username with
    | some _ =>
      (.conflict ⟨"User already exists", "A user with this email or username already exists"⟩, s)
    | none =>
      let u := registeredUser s r
      (.created (generateToken u.id now secret) u,
        { s with users := s.users ++ [u], nextUserID := s.nextUserID + 1 })

/-- Outcome of the `Login` handler. -/
inductive LoginResult where
  | badRequest (e : ErrorResponse)
  | unauthorized (e : ErrorResponse)
  | ok (token : Token) (u : User)
deriving DecidableEq, Repr

/-- HTTP status code of a login outcome. -/
def LoginResult.status : LoginResult → ℕ
  | .badRequest _ => 400
  | .unauthorized _ => 401
  | .ok _ _ => 200

/-- `AuthHandler.Login` (transaction_handler.go lines 414-473): bind and
validate, look the user up by email (401 with the bad-credentials body if
absent), reject a disabled account with 401 and the account-disabled body
*before* any password check, verify the password (401 with the
bad-credentials body on mismatch), then issue a token. -/
def login (s : Store) (r : LoginRequest) (secret : String) (now : ℤ) : LoginResult :=
  if !bindLoginRequest r then
    .badRequest ⟨"Invalid request", "validation failed"⟩
  else
    match findUserByEmail s r.email with
    | none => .unauthorized invalidCredentialsResponse
    | some u =>
      if !u.isActive then .unauthorized accountDisabledResponse
      else if !bcryptCompare u.password r.password then
        .unauthorized invalidCredentialsResponse
      else .ok (generateToken u.id now secret) u

/-! ### Field-level characterization of the update merge -/

theorem applyUpdate_type (t : Transaction) (r : UpdateTransactionRequest) :
    (applyUpdate t r).type = if r.type ≠ "" then r.type else t.type := by
  by_cases h1 : r.type ≠ "" <;> by_cases h2 : (0:ℚ) < r.amount <;>
    by_cases h3 : (0:ℚ) < r.price <;> by_cases h4 : r.status ≠ "" <;>
    by_cases h5 : r.description ≠ "" <;>
    simp [applyUpdate, h1, h2, h3, h4, h5]

theorem applyUpdate_amount (t : Transaction) (r : UpdateTransactionRequest) :
    (applyUpdate t r).amount = if 0 < r.amount then r.amount else t.amount := by
  by_cases h1 : r.type ≠ "" <;> by_cases h2 : (0:ℚ) < r.amount <;>
    by_cases h3 : (0:ℚ) < r.price <;> by_cases h4 : r.status ≠ "" <;>
    by_cases h5 : r.description ≠ "" <;>
    simp [applyUpdate, h1, h2, h3, h4, h5]

theorem applyUpdate_price (t : Transaction) (r : UpdateTransactionRequest) :
    (applyUpdate t r).price = if 0 < r.price then r.price else t.price := by
  by_cases h1 : r.type ≠ "" <;> by_cases h2 : (0:ℚ) < r.amount <;>
    by_cases h3 : (0:ℚ) < r.price <;> by_cases h4 : r.status ≠ "" <;>
    by_cases h5 : r.description ≠ "" <;>
    simp [applyUpdate, h1, h2, h3, h4, h5]

theorem applyUpdate_status (t : Transaction) (r : UpdateTransactionRequest) :
    (applyUpdate t r).status = if r.status ≠ "" then r.status else t.status := by
  by_cases h1 : r.type ≠ "" <;> by_cases h2 : (0:ℚ) < r.amount <;>
    by_cases h3 : (0:ℚ) < r.price <;> by_cases h4 : r.status ≠ "" <;>
    by_cases h5 : r.description ≠ "" <;>
    simp [applyUpdate, h1, h2, h3, h4, h5]

theorem applyUpdate_description (t : Transaction) (r : UpdateTransactionRequest) :
    (applyUpdate t r).description =
      if r.description ≠ "" then r.description else t.description := by
  by_cases h1 : r.type ≠ "" <;> by_cases h2 : (0:ℚ) < r.amount <;>
    by_cases h3 : (0:ℚ) < r.price <;> by_cases h4 : r.status ≠ "" <;>
    by_cases h5 : r.description ≠ "" <;>
    simp [applyUpdate, h1, h2, h3, h4, h5]

theorem applyUpdate_totalValue_of_changed (t : Transaction)
    (r : UpdateTransactionRequest) (h : 0 < r.amount ∨ 0 < r.price) :
    (applyUpdate t r).totalValue = (applyUpdate t r).amount * (applyUpdate t r).price := by
  by_cases h2 : (0:ℚ) < r.amount <;> by_cases h3 : (0:ℚ) < r.price <;>
    by_cases h1 : r.type ≠ "" <;> by_cases h4 : r.status ≠ "" <;>
    by_cases h5 : r.description ≠ "" <;>
    simp [applyUpdate, h1, h2, h3, h4, h5] <;> tauto


/-! ### Claim C7 -/

/-- C7: whenever an update supplies amount or price (a positive value, the
only way a numeric field counts as present), the stored total value after
the merge equals the product of the transaction's resulting stored amount
and resulting stored price; in particular, when only price is supplied the
previously stored amount is reused in the product. -/
theorem updated_total_is_product_of_resulting_fields (t : Transaction)
    (r : UpdateTransactionRequest) (h : 0 < r.amount ∨ 0 < r.price) :
    (applyUpdate t r).totalValue =
      (applyUpdate t r).amount * (applyUpdate t r).price ∧
    (r.amount ≤ 0 → 0 < r.price →
      (applyUpdate t r).totalValue = t.amount * r.price) := by
  refine ⟨applyUpdate_totalValue_of_changed t r h, fun hna hp => ?_⟩
  rw [applyUpdate_totalValue_of_changed t r h, applyUpdate_amount, applyUpdate_price,
    if_neg (not_lt.mpr hna), if_pos hp]

theorem updated_total_is_product_of_resulting_fields_witness :
    ((0:ℚ) < 0 ∨ (0:ℚ) < 7) ∧
    ((applyUpdate ⟨1, 2, 3, "buy", 4, 5, 20, "pending", "d"⟩
        ⟨"", 0, 7, "", ""⟩).totalValue =
      (applyUpdate ⟨1, 2, 3, "buy", 4, 5, 20, "pending", "d"⟩
        ⟨"", 0, 7, "", ""⟩).amount *
      (applyUpdate ⟨1, 2, 3, "buy", 4, 5, 20, "pending", "d"⟩
        ⟨"", 0, 7, "", ""⟩).price ∧
     ((0:ℚ) ≤ 0 → (0:ℚ) < 7 →
      (applyUpdate ⟨1, 2, 3, "buy", 4, 5, 20, "pending", "d"⟩
        ⟨"", 0, 7, "", ""⟩).totalValue = 4 * 7)) :=
  ⟨Or.inr (by decide),
   updated_total_is_product_of_resulting_fields
     ⟨1, 2, 3, "buy", 4, 5, 20, "pending", "d"⟩ ⟨"", 0, 7, "", ""⟩
     (Or.inr (by decide))⟩

/-! ### Claim C8 -/

/-- C8: the update merge is sparse: any request field holding its zero value
(empty string for type, status, description; zero or negative for amount
and price) leaves the corresponding stored field of the transaction
unchanged. -/
theorem update_preserves_zero_valued_fields (t : Transaction)
    (r : UpdateTransactionRequest) :
    (r.type = "" → (applyUpdate t r).type = t.type) ∧
    (r.amount ≤ 0 → (applyUpdate t r).amount = t.amount) ∧
    (r.price ≤ 0 → (applyUpdate t r).price = t.price) ∧
    (r.status = "" → (applyUpdate t r).status = t.status) ∧
    (r.description = "" → (applyUpdate t r).description = t.description) := by
  refine ⟨fun h => ?_, fun h => ?_, fun h => ?_, fun h => ?_, fun h => ?_⟩
  · rw [applyUpdate_type, if_neg (not_not_intro h)]
  · rw [applyUpdate_amount, if_neg (not_lt.mpr h)]
  · rw [applyUpdate_price, if_neg (not_lt.mpr h)]
  · rw [applyUpdate_status, if_neg (not_not_intro h)]
  · rw [applyUpdate_description, if_neg (not_not_intro h)]

theorem update_preserves_zero_valued_fields_witness :
    (applyUpdate ⟨1, 2, 3, "buy", 4, 5, 20, "pending", "d"⟩
      ⟨"", 0, 0, "", ""⟩).type = "buy" ∧
    (applyUpdate ⟨1, 2, 3, "buy", 4, 5, 20, "pending", "d"⟩
      ⟨"", 0, 0, "", ""⟩).amount = 4 ∧
    (applyUpdate ⟨1, 2, 3, "buy", 4, 5, 20, "pending", "d"⟩
      ⟨"", 0, 0, "", ""⟩).price = 5 ∧
    (applyUpdate ⟨1, 2, 3, "buy", 4, 5, 20, "pending", "d"⟩
      ⟨"", 0, 0, "", ""⟩).status = "pending" ∧
    (applyUpdate ⟨1, 2, 3, "buy", 4, 5, 20, "pending", "d"⟩
      ⟨"", 0, 0, "", ""⟩).description = "d" :=
  ⟨(update_preserves_zero_valued_fields _ ⟨"", 0, 0, "", ""⟩).1 rfl,
   (update_preserves_zero_valued_fields _ ⟨"", 0, 0, "", ""⟩).2.1 (by decide),
   (update_preserves_zero_valued_fields _ ⟨"", 0, 0, "", ""⟩).2.2.1 (by decide),
   (update_preserves_zero_valued_fields _ ⟨"", 0, 0, "", ""⟩).2.2.2.1 rfl,
   (update_preserves_zero_valued_fields _ ⟨"", 0, 0, "", ""⟩).2.2.2.2 rfl⟩

/-! ### Claim C1 -/

/-- C1: a createTransaction request that passes input validation but whose
assetID does not refer to an existing asset always fails with the
asset-not-found client error and persists nothing: the handler returns the
`assetNotFoundResponse` body (HTTP 400 in this code) and the store is
returned unchanged, so no Transaction record is created. -/
theorem create_missing_asset_fails_and_persists_nothing (s : Store)
    (v : GoValue) (req : CreateTransactionRequest)
    (hbind : bindCreateTransactionRequest req = true)
    (hmiss : lookupAsset s req.assetID = none) :
    createTransaction s (some v) req = (.badRequest assetNotFoundResponse, s) := by
  simp [createTransaction, hbind, hmiss]

theorem create_missing_asset_fails_and_persists_nothing_witness :
    bindCreateTransactionRequest ⟨1, "buy", 2, 3, ""⟩ = true ∧
    lookupAsset ⟨[], [], [], 1, 1⟩ 1 = none ∧
    createTransaction ⟨[], [], [], 1, 1⟩ (some (.vUint 7)) ⟨1, "buy", 2, 3, ""⟩ =
      (.badRequest assetNotFoundResponse, ⟨[], [], [], 1, 1⟩) :=
  ⟨by decide, by decide,
   create_missing_asset_fails_and_persists_nothing ⟨[], [], [], 1, 1⟩
     (.vUint 7) ⟨1, "buy", 2, 3, ""⟩ (by decide) (by decide)⟩

/-! ### Claim C2 -/

/-- C2: the auth middleware stores the raw decoded JWT `user_id` claim in
the request context, and a JSON number decodes to `float64`, so every
context value it can produce has dynamic type `float64`; the unchecked
`userID.(uint)` assertion in `CreateTransaction` succeeds only on dynamic
type `uint`, so on every middleware-produced value the cast panics: when
the request passes validation and the asset exists, the handler neither
reaches an error branch nor completes, and nothing is persisted. -/
theorem middleware_context_value_makes_create_panic (s : Store) (tok : Token)
    (secret : String) (now : ℤ) (v : GoValue) (req : CreateTransactionRequest)
    (hauth : authMiddleware tok secret now = .proceed v)
    (hbind : bindCreateTransactionRequest req = true)
    (hasset : (lookupAsset s req.assetID).isSome = true) :
    typeAssertUint v = none ∧
    createTransaction s (some v) req = (.panicked, s) := by
  have hv : v = .vFloat (tok.userID : ℚ) := by
    unfold authMiddleware at hauth
    cases hval : validateToken tok secret now with
    | none => rw [hval] at hauth; cases hauth
    | some t =>
      rw [hval] at hauth
      have ht : t = tok := by
        unfold validateToken at hval
        split at hval
        · cases hval
        · split at hval
          · cases hval
          · split at hval
            · cases hval
            · exact (Option.some.inj hval).symm
      cases hauth
      rw [ht]
      rfl
  obtain ⟨a, ha⟩ := Option.isSome_iff_exists.mp hasset
  subst hv
  exact ⟨rfl, by simp [createTransaction, hbind, ha, typeAssertUint]⟩

theorem middleware_context_value_makes_create_panic_witness :
    authMiddleware ⟨.HS256, 9, 0, 86400, "k"⟩ "k" 0 = .proceed (.vFloat 9) ∧
    bindCreateTransactionRequest ⟨1, "buy", 2, 3, ""⟩ = true ∧
    (lookupAsset ⟨[], [⟨1, "Bitcoin", "BTC", "cryptocurrency", "", 50000, true⟩], [], 1, 1⟩
      1).isSome = true ∧
    (typeAssertUint (.vFloat 9) = none ∧
     createTransaction ⟨[], [⟨1, "Bitcoin", "BTC", "cryptocurrency", "", 50000, true⟩], [], 1, 1⟩
       (some (.vFloat 9)) ⟨1, "buy", 2, 3, ""⟩ =
       (.panicked, ⟨[], [⟨1, "Bitcoin", "BTC", "cryptocurrency", "", 50000, true⟩], [], 1, 1⟩)) :=
  ⟨by decide, by decide, by decide,
   middleware_context_value_makes_create_panic
     ⟨[], [⟨1, "Bitcoin", "BTC", "cryptocurrency", "", 50000, true⟩], [], 1, 1⟩
     ⟨.HS256, 9, 0, 86400, "k"⟩ "k" 0 (.vFloat 9) ⟨1, "buy", 2, 3, ""⟩
     (by decide) (by decide) (by decide)⟩

/-! ### Claim C3 -/

/-- C3: every successful createTransaction persists a Transaction with
status `"pending"` whose owning user identifier is exactly the
authenticated identifier carried by the request context (the `vUint`
stored under `"user_id"`); the identifier cannot come from the request
body, as `CreateTransactionRequest` has no user field.  The persisted
record is the one appended to the store. -/
theorem created_transaction_status_and_owner (s : Store)
    (ctx : Option GoValue) (req : CreateTransactionRequest) (t : Transaction)
    (h : (createTransaction s ctx req).1 = .created t) :
    t.status = "pending" ∧ ctx = some (.vUint t.userID) ∧
    (createTransaction s ctx req).2.transactions = s.transactions ++ [t] := by
  by_cases hb : bindCreateTransactionRequest req
  · cases ctx with
    | none => simp [createTransaction, hb] at h
    | some v =>
      cases hl : lookupAsset s req.assetID with
      | none => simp [createTransaction, hb, hl] at h
      | some a =>
        cases v with
        | vFloat q => simp [createTransaction, hb, hl, typeAssertUint] at h
        | vString str => simp [createTransaction, hb, hl, typeAssertUint] at h
        | vUint n =>
          simp only [createTransaction, hb, Bool.not_true, Bool.false_eq_true,
            if_false, hl, typeAssertUint] at h ⊢
          cases h
          exact ⟨rfl, rfl, rfl⟩
  · simp [createTransaction, hb] at h

theorem created_transaction_status_and_owner_witness :
    (createTransaction ⟨[], [⟨1, "Bitcoin", "BTC", "cryptocurrency", "", 50000, true⟩], [], 1, 1⟩
      (some (.vUint 7)) ⟨1, "buy", 2, 3, ""⟩).1 =
      .created ⟨1, 7, 1, "buy", 2, 3, 2 * 3, "pending", ""⟩ ∧
    ((⟨1, 7, 1, "buy", 2, 3, 2 * 3, "pending", ""⟩ : Transaction).status = "pending" ∧
     (some (.vUint 7) : Option GoValue) =
       some (.vUint (⟨1, 7, 1, "buy", 2, 3, 2 * 3, "pending", ""⟩ : Transaction).userID) ∧
     (createTransaction ⟨[], [⟨1, "Bitcoin", "BTC", "cryptocurrency", "", 50000, true⟩], [], 1, 1⟩
       (some (.vUint 7)) ⟨1, "buy", 2, 3, ""⟩).2.transactions =
       [] ++ [⟨1, 7, 1, "buy", 2, 3, 2 * 3, "pending", ""⟩]) :=
  ⟨rfl,
   created_transaction_status_and_owner
     ⟨[], [⟨1, "Bitcoin", "BTC", "cryptocurrency", "", 50000, true⟩], [], 1, 1⟩
     (some (.vUint 7)) ⟨1, "buy", 2, 3, ""⟩
     ⟨1, 7, 1, "buy", 2, 3, 2 * 3, "pending", ""⟩ rfl⟩

/-! ### Claim C4 -/

/-- C4: for every request accepted by createTransaction, the persisted
Transaction stores a total value computed as the single product
`amount * price` of the request values, with no rounding or
currency-precision adjustment: the stored field is literally that product
under the multiplication of the value domain. -/
theorem created_total_value_is_exact_product (s : Store)
    (ctx : Option GoValue) (req : CreateTransactionRequest) (t : Transaction)
    (h : (createTransaction s ctx req).1 = .created t) :
    t.totalValue = req.amount * req.price := by
  by_cases hb : bindCreateTransactionRequest req
  · cases ctx with
    | none => simp [createTransaction, hb] at h
    | some v =>
      cases hl : lookupAsset s req.assetID with
      | none => simp [createTransaction, hb, hl] at h
      | some a =>
        cases v with
        | vFloat q => simp [createTransaction, hb, hl, typeAssertUint] at h
        | vString str => simp [createTransaction, hb, hl, typeAssertUint] at h
        | vUint n =>
          simp only [createTransaction, hb, Bool.not_true, Bool.false_eq_true,
            if_false, hl, typeAssertUint] at h
          cases h
          rfl
  · simp [createTransaction, hb] at h

theorem created_total_value_is_exact_product_witness :
    (createTransaction ⟨[], [⟨1, "Bitcoin", "BTC", "cryptocurrency", "", 50000, true⟩], [], 1, 1⟩
      (some (.vUint 7)) ⟨1, "buy", 2, 3, ""⟩).1 =
      .created ⟨1, 7, 1, "buy", 2, 3, 2 * 3, "pending", ""⟩ ∧
    (⟨1, 7, 1, "buy", 2, 3, 2 * 3, "pending", ""⟩ : Transaction).totalValue = 2 * 3 :=
  ⟨rfl,
   created_total_value_is_exact_product
     ⟨[], [⟨1, "Bitcoin", "BTC", "cryptocurrency", "", 50000, true⟩], [], 1, 1⟩
     (some (.vUint 7)) ⟨1, "buy", 2, 3, ""⟩
     ⟨1, 7, 1, "buy", 2, 3, 2 * 3, "pending", ""⟩ rfl⟩

/-! ### Claim C5 -/

/-- Spec-side definition, following the words of C5 for comparison with
`bindCreateTransactionRequest`: the spec claims a request is accepted iff
its type is one of buy, sell, transfer and its amount and price are
non-negative numbers. -/
def claimedCreateValidation (r : CreateTransactionRequest) : Bool :=
  (r.type == "buy" || r.type == "sell" || r.type == "transfer") &&
  decide (0 ≤ r.amount) && decide (0 ≤ r.price)

/-- C5 counterexample: the request
`{assetID := 1, type := "buy", amount := 0, price := 50000}` satisfies the
claimed acceptance condition (valid type, non-negative amount and price),
yet the code rejects it: the `required` binding tag on a numeric field
fails on the zero value, so `ShouldBindJSON` reports a validation error and
the handler answers 400. -/
theorem create_validation_rejects_zero_amount :
    claimedCreateValidation ⟨1, "buy", 0, 50000, ""⟩ = true ∧
    bindCreateTransactionRequest ⟨1, "buy", 0, 50000, ""⟩ = false ∧
    createTransaction ⟨[], [⟨1, "Bitcoin", "BTC", "cryptocurrency", "", 50000, true⟩], [], 1, 1⟩
      (some (.vUint 7)) ⟨1, "buy", 0, 50000, ""⟩ =
      (.badRequest ⟨"Invalid request", "validation failed"⟩,
       ⟨[], [⟨1, "Bitcoin", "BTC", "cryptocurrency", "", 50000, true⟩], [], 1, 1⟩) := by
  refine ⟨by decide, by decide, ?_⟩
  simp [createTransaction, bindCreateTransactionRequest]

/-- C5 amended: createTransaction input validation accepts a request iff
its assetID is non-zero, its type is one of buy, sell, transfer, and its
amount and price are strictly positive (the `required` tag rejects the
zero value of every numeric field, so zero amount, zero price or zero
assetID are rejected along with negative numbers); every request violating
this fails the JSON binding and is answered with a 400 validation error. -/
theorem create_validation_iff_positive (r : CreateTransactionRequest) :
    bindCreateTransactionRequest r = true ↔
    (r.assetID ≠ 0 ∧
     (r.type = "buy" ∨ r.type = "sell" ∨ r.type = "transfer") ∧
     0 < r.amount ∧ 0 < r.price) := by
  unfold bindCreateTransactionRequest
  simp only [Bool.and_eq_true, bne_iff_ne, Bool.or_eq_true, beq_iff_eq,
    decide_eq_true_eq, ne_eq]
  constructor
  · rintro ⟨⟨⟨ha, -, ht⟩, hane, hale⟩, hpne, hple⟩
    exact ⟨ha, or_assoc.mp ht, lt_of_le_of_ne hale (Ne.symm hane),
      lt_of_le_of_ne hple (Ne.symm hpne)⟩
  · rintro ⟨ha, ht, ham, hp⟩
    refine ⟨⟨⟨ha, ?_, or_assoc.mpr ht⟩, ne_of_gt ham, le_of_lt ham⟩,
      ne_of_gt hp, le_of_lt hp⟩
    intro he
    rw [he] at ht
    rcases ht with h | h | h <;> exact absurd h (by decide)

/-! ### Claim C6 -/

/-- C6 counterexample: a store holding one disabled account whose password
digest matches the supplied (correct) password.  Login answers 401, but
with the distinct `accountDisabledResponse` body, not the
`invalidCredentialsResponse` body returned for an unknown email or a wrong
password — the response does reveal that the account is disabled. -/
theorem disabled_login_body_reveals_account_state :
    login ⟨[⟨1, "a@b.com", "ab", bcryptGenerate "secret1", "", "", false⟩], [], [], 2, 1⟩
      ⟨"a@b.com", "secret1"⟩ "k" 0 = .unauthorized accountDisabledResponse ∧
    bcryptCompare (bcryptGenerate "secret1") "secret1" = true ∧
    login ⟨[⟨1, "a@b.com", "ab", bcryptGenerate "secret1", "", "", false⟩], [], [], 2, 1⟩
      ⟨"other@b.com", "secret1"⟩ "k" 0 = .unauthorized invalidCredentialsResponse ∧
    accountDisabledResponse ≠ invalidCredentialsResponse := by
  refine ⟨?_, by decide, ?_, by decide⟩ <;> decide

/-- C6 amended: a login attempt against an account whose isActive flag is
false fails with status 401 regardless of the supplied password (the
disabled check runs before password verification), but the public error
body is the dedicated account-disabled response, which differs from the
one returned for a wrong password or unknown email. -/
theorem disabled_login_always_401 (s : Store) (r : LoginRequest) (u : User)
    (secret : String) (now : ℤ)
    (hbind : bindLoginRequest r = true)
    (hfind : findUserByEmail s r.email = some u)
    (hdis : u.isActive = false) :
    login s r secret now = .unauthorized accountDisabledResponse ∧
    (login s r secret now).status = 401 := by
  have : login s r secret now = .unauthorized accountDisabledResponse := by
    simp [login, hbind, hfind, hdis]
  exact ⟨this, by rw [this]; rfl⟩

theorem disabled_login_always_401_witness :
    bindLoginRequest ⟨"a@b.com", "wrongpw"⟩ = true ∧
    findUserByEmail ⟨[⟨1, "a@b.com", "ab", bcryptGenerate "secret1", "", "", false⟩], [], [], 2, 1⟩
      "a@b.com" = some ⟨1, "a@b.com", "ab", bcryptGenerate "secret1", "", "", false⟩ ∧
    (login ⟨[⟨1, "a@b.com", "ab", bcryptGenerate "secret1", "", "", false⟩], [], [], 2, 1⟩
       ⟨"a@b.com", "wrongpw"⟩ "k" 0 = .unauthorized accountDisabledResponse ∧
     (login ⟨[⟨1, "a@b.com", "ab", bcryptGenerate "secret1", "", "", false⟩], [], [], 2, 1⟩
       ⟨"a@b.com", "wrongpw"⟩ "k" 0).status = 401) :=
  ⟨by decide, by decide,
   disabled_login_always_401
     ⟨[⟨1, "a@b.com", "ab", bcryptGenerate "secret1", "", "", false⟩], [], [], 2, 1⟩
     ⟨"a@b.com", "wrongpw"⟩ ⟨1, "a@b.com", "ab", bcryptGenerate "secret1", "", "", false⟩
     "k" 0 (by decide) (by decide) rfl⟩

/-! ### Claim C9 -/

/-- C9: every issued token carries the claims
`{user_id = userID, iat = now, exp = iat + 86400}` and is signed with the
symmetric HMAC scheme HS256; validation rejects any token whose expiry has
passed, so a token checked strictly more than 86400 seconds after issuance
is rejected even though its signature verifies under the server secret. -/
theorem token_claims_shape_and_expiry (uid : ℕ) (now : ℤ) (secret : String) :
    (generateToken uid now secret).userID = uid ∧
    (generateToken uid now secret).iat = now ∧
    (generateToken uid now secret).exp = (generateToken uid now secret).iat + 86400 ∧
    (generateToken uid now secret).alg = SigAlg.HS256 ∧
    (generateToken uid now secret).sig = secret ∧
    ∀ tv : ℤ, (generateToken uid now secret).iat + 86400 < tv →
      validateToken (generateToken uid now secret) secret tv = none := by
  refine ⟨rfl, rfl, rfl, rfl, rfl, fun tv htv => ?_⟩
  simp only [generateToken] at htv ⊢
  simp [validateToken, htv]

theorem token_claims_shape_and_expiry_witness :
    ((generateToken 5 1000 "k").iat + 86400 < 90000) ∧
    validateToken (generateToken 5 1000 "k") "k" 90000 = none :=
  ⟨by decide, (token_claims_shape_and_expiry 5 1000 "k").2.2.2.2.2 90000 (by decide)⟩

/-! ### Claim C10 -/

theorem findUserByEmail_after_fresh_append (s : Store) (r : RegisterRequest)
    (hfresh : findUserByEmailOrUsername s r.email r.username = none) :
    (s.users ++ [registeredUser s r]).find? (fun u => u.email == r.email) =
      some (registeredUser s r) := by
  rw [List.find?_append]
  have h1 : s.users.find? (fun u => u.email == r.email) = none := by
    rw [List.find?_eq_none]
    intro x hx
    have hne := List.find?_eq_none.mp hfresh x hx
    simp only [Bool.or_eq_true, beq_iff_eq, not_or] at hne
    simp [hne.1]
  rw [h1]
  simp [registeredUser]

/-- C10: for every valid registration input against a store holding no user
with that email or username, registration succeeds and creates the user
with the next identifier; logging in afterwards with the same email and
password succeeds and returns a token for that user; and validating that
token succeeds, yielding a `user_id` subject equal to the created user's
identifier. -/
theorem register_then_login_roundtrip (s : Store) (r : RegisterRequest)
    (secret : String) (t1 t2 : ℤ)
    (hbind : bindRegisterRequest r = true)
    (hfresh : findUserByEmailOrUsername s r.email r.username = none) :
    register s r secret t1 =
      (.created (generateToken (registeredUser s r).id t1 secret) (registeredUser s r),
       { s with users := s.users ++ [registeredUser s r],
                nextUserID := s.nextUserID + 1 }) ∧
    login { s with users := s.users ++ [registeredUser s r],
                   nextUserID := s.nextUserID + 1 }
        ⟨r.email, r.password⟩ secret t2 =
      .ok (generateToken (registeredUser s r).id t2 secret) (registeredUser s r) ∧
    validateToken (generateToken (registeredUser s r).id t2 secret) secret t2 =
      some (generateToken (registeredUser s r).id t2 secret) ∧
    (generateToken (registeredUser s r).id t2 secret).userID = (registeredUser s r).id := by
  have hb := hbind
  simp only [bindRegisterRequest, Bool.and_eq_true] at hb
  obtain ⟨⟨⟨hem, hvem⟩, -⟩, hpw, -⟩ := hb
  refine ⟨by simp [register, hbind, hfresh], ?_, ?_, rfl⟩
  · have hbl : bindLoginRequest ⟨r.email, r.password⟩ = true := by
      simp only [bindLoginRequest, Bool.and_eq_true]
      exact ⟨⟨hem, hvem⟩, hpw⟩
    have hfind : findUserByEmail
        { s with users := s.users ++ [registeredUser s r],
                 nextUserID := s.nextUserID + 1 } r.email =
        some (registeredUser s r) :=
      findUserByEmail_after_fresh_append s r hfresh
    unfold login
    rw [hbl]
    simp only [Bool.not_true, Bool.false_eq_true, if_false]
    rw [hfind]
    simp [registeredUser, bcryptCompare]
  · simp only [validateToken, generateToken]
    simp

theorem register_then_login_roundtrip_witness :
    bindRegisterRequest ⟨"a@b.com", "abc", "secret1", "J", "D"⟩ = true ∧
    findUserByEmailOrUsername ⟨[], [], [], 1, 1⟩ "a@b.com" "abc" = none ∧
    login { (⟨[], [], [], 1, 1⟩ : Store) with
            users := ([] : List User) ++
              [registeredUser ⟨[], [], [], 1, 1⟩ ⟨"a@b.com", "abc", "secret1", "J", "D"⟩],
            nextUserID := 1 + 1 }
        ⟨"a@b.com", "secret1"⟩ "k" 100 =
      .ok (generateToken
            (registeredUser ⟨[], [], [], 1, 1⟩ ⟨"a@b.com", "abc", "secret1", "J", "D"⟩).id
            100 "k")
          (registeredUser ⟨[], [], [], 1, 1⟩ ⟨"a@b.com", "abc", "secret1", "J", "D"⟩) ∧
    validateToken
        (generateToken
          (registeredUser ⟨[], [], [], 1, 1⟩ ⟨"a@b.com", "abc", "secret1", "J", "D"⟩).id
          100 "k") "k" 100 =
      some (generateToken
        (registeredUser ⟨[], [], [], 1, 1⟩ ⟨"a@b.com", "abc", "secret1", "J", "D"⟩).id
        100 "k") :=
  ⟨by decide, by decide,
   (register_then_login_roundtrip ⟨[], [], [], 1, 1⟩
     ⟨"a@b.com", "abc", "secret1", "J", "D"⟩ "k" 0 100 (by decide) (by decide)).2.1,
   (register_then_login_roundtrip ⟨[], [], [], 1, 1⟩
     ⟨"a@b.com", "abc", "secret1", "J", "D"⟩ "k" 0 100 (by decide) (by decide)).2.2.1⟩

end GoApi
